import Mathlib

/-!
Shallow embedding of the retrieval-and-augmentation pipeline of the
travel-itinerary chatbot: the query intent extraction, external data
gateway and context composition logic of `src/rag_engine.py` and
`src/apis/travel_data.py`, together with theorems settling the frozen
claims about that code.

Python strings are modelled as Lean `String` (lists of characters);
the ASCII fragments of Python's `str.upper`, `str.lower`, `str.strip`,
`str.split`, slicing and substring tests are embedded explicitly so that
every definition evaluates by kernel reduction.  Network interactions of
the gateway (Amadeus, Open-Meteo, exchange-rate endpoints) are modelled
as oracle response functions supplied as inputs; the code that inspects
and transforms those responses is translated from the source.
-/

namespace TravelBot

/-- Python whitespace as used by `str.strip()`, `str.split()` and `\s`
in the regular expressions of the source (ASCII fragment). -/
def isPyWs (c : Char) : Bool :=
  c = ' ' || c = '\t' || c = '\n' || c = '\x0d' || c = '\x0b' || c = '\x0c'

/-- ASCII `str.lower()`. -/
def pyLower (s : String) : String := String.mk (s.data.map Char.toLower)

/-- ASCII `str.upper()`. -/
def pyUpper (s : String) : String := String.mk (s.data.map Char.toUpper)

/-- Python slicing `s[:n]`. -/
def strTake (s : String) (n : Nat) : String := String.mk (s.data.take n)

/-- Model of `str.strip(chars)`: drop characters of `cs` from both ends. -/
def pyStrip (s : String) (cs : List Char) : String :=
  String.mk (((s.data.dropWhile (cs.contains ·)).reverse.dropWhile (cs.contains ·)).reverse)

/-- Model of `str.strip()` with no argument: strip whitespace from both ends. -/
def pyStripWs (s : String) : String :=
  String.mk (((s.data.dropWhile isPyWs).reverse.dropWhile isPyWs).reverse)

/-- Does `hay` start with `needle`? -/
def startsWithL (needle hay : List Char) : Bool :=
  match needle, hay with
  | [], _ => true
  | _ :: _, [] => false
  | a :: ns, b :: hs => a = b && startsWithL ns hs

/-- Does `needle` occur as a contiguous run inside `hay`? -/
def hasSub (needle hay : List Char) : Bool :=
  match hay with
  | [] => startsWithL needle []
  | _ :: rest => startsWithL needle hay || hasSub needle rest

/-- Python's `needle in haystack` substring test. -/
def containsSub (haystack needle : String) : Bool :=
  hasSub needle.data haystack.data

/-- Model of `sep.join(parts)` (Python's `str.join`). -/
def pyJoin (sep : String) : List String → String
  | [] => ""
  | [a] => a
  | a :: rest => a ++ sep ++ pyJoin sep rest

/-- Helper for `str.split()`: split a character list on whitespace runs,
dropping empty pieces; `cur` is the current word accumulated in reverse. -/
def pyWordsAux (cur : List Char) : List Char → List (List Char)
  | [] => if cur = [] then [] else [cur.reverse]
  | c :: rest =>
    if isPyWs c then
      if cur = [] then pyWordsAux [] rest
      else cur.reverse :: pyWordsAux [] rest
    else pyWordsAux (c :: cur) rest

/-- Python's `str.split()` with no argument. -/
def pySplit (s : String) : List String := (pyWordsAux [] s.data).map String.mk

/-- First whitespace-separated token, `s.split()[0]` of `s`
(total model; Python raises on an all-whitespace string, a case no
provider price string hits). -/
def firstTok (s : String) : String :=
  String.mk ((s.data.dropWhile isPyWs).takeWhile (fun c => !isPyWs c))

/-- Model of `s.replace('T', ' at ')` as used on ISO timestamps. -/
def replaceT (s : String) : String :=
  String.mk (s.data.flatMap (fun c => if c = 'T' then " at ".data else [c]))

/-!  ## Duration formatting (`TravelDataAPI._format_duration`)  -/

/-- Model of `re.search(r'(\d+)H', s)` (and the analogous `M` search):
the leftmost maximal digit run immediately followed by `marker`.
`acc` holds the digit run currently being scanned, in order. -/
def findNumBefore (marker : Char) (acc : List Char) : List Char → Option (List Char)
  | [] => none
  | c :: rest =>
    if c.isDigit then findNumBefore marker (acc ++ [c]) rest
    else if c = marker && acc ≠ [] then some acc
    else findNumBefore marker [] rest

/-- Embedding of `TravelDataAPI._format_duration`: convert an ISO-8601 duration such
as `PT14H15M` to `14h 15m`; if neither component is found the input is
returned unchanged. -/
def formatDuration (duration : String) : String :=
  let hours := findNumBefore 'H' [] duration.data
  let minutes := findNumBefore 'M' [] duration.data
  match hours, minutes with
  | some h, some m => String.mk h ++ "h " ++ String.mk m ++ "m"
  | some h, none => String.mk h ++ "h"
  | none, some m => String.mk m ++ "m"
  | none, none => duration

/-!  ## Static lookup tables  -/

/-- Table `RAGEngine.CITY_TO_AIRPORT` (3-letter code → airport code). -/
def CITY_TO_AIRPORT : List (String × String) :=
  [("PAR", "CDG"), ("LON", "LHR"), ("NYC", "JFK"), ("TYO", "NRT"),
   ("TOK", "NRT"), ("DXB", "DXB"), ("BKK", "BKK"), ("SIN", "SIN"),
   ("HKG", "HKG"), ("SYD", "SYD"), ("MEL", "MEL"), ("LAX", "LAX"),
   ("SFO", "SFO"), ("ROM", "FCO"), ("BCN", "BCN"), ("MAD", "MAD"),
   ("BER", "BER"), ("AMS", "AMS"), ("IST", "IST")]

/-- Table `city_name_mapping` inside `RAGEngine._extract_location_code`. -/
def CITY_NAME_MAPPING : List (String × String) :=
  [("PARIS", "CDG"), ("LONDON", "LHR"), ("NEW YORK", "JFK"), ("NEWYORK", "JFK"),
   ("TOKYO", "NRT"), ("DUBAI", "DXB"), ("BANGKOK", "BKK"), ("SINGAPORE", "SIN"),
   ("HONG KONG", "HKG"), ("HONGKONG", "HKG"), ("SYDNEY", "SYD"), ("MELBOURNE", "MEL"),
   ("LOS ANGELES", "LAX"), ("LOSANGELES", "LAX"), ("SAN FRANCISCO", "SFO"),
   ("SANFRANCISCO", "SFO"), ("ROME", "FCO"), ("BARCELONA", "BCN"), ("MADRID", "MAD"),
   ("BERLIN", "BER"), ("AMSTERDAM", "AMS"), ("ISTANBUL", "IST"), ("MUMBAI", "BOM"),
   ("DELHI", "DEL"), ("NEW DELHI", "DEL"), ("NEWDELHI", "DEL")]

/-- Table `TravelDataAPI.AIRLINE_NAMES` (IATA code → airline display name). -/
def AIRLINE_NAMES : List (String × String) :=
  [("6E", "IndiGo"), ("AI", "Air India"), ("UK", "Vistara"), ("SG", "SpiceJet"),
   ("EK", "Emirates"), ("QR", "Qatar Airways"), ("EY", "Etihad Airways"),
   ("BA", "British Airways"), ("LH", "Lufthansa"), ("AF", "Air France"),
   ("KL", "KLM"), ("LX", "Swiss"), ("OS", "Austrian Airlines"),
   ("TK", "Turkish Airlines"), ("SQ", "Singapore Airlines"), ("CX", "Cathay Pacific"),
   ("QF", "Qantas"), ("NH", "ANA"), ("JL", "Japan Airlines"),
   ("AA", "American Airlines"), ("UA", "United Airlines"), ("DL", "Delta"),
   ("AC", "Air Canada"), ("VS", "Virgin Atlantic"),
   ("UL", "SriLankan Airlines"), ("VJ", "VietJet Air"), ("W2", "FlexFlight"),
   ("KU", "Kuwait Airways"), ("9W", "Jet Airways"), ("G8", "Go Air"),
   ("FZ", "flydubai"), ("WY", "Oman Air"), ("MS", "EgyptAir"),
   ("TG", "Thai Airways"), ("MH", "Malaysia Airlines"), ("GA", "Garuda Indonesia")]

/-- Embedding of `TravelDataAPI._get_airline_name`. -/
def getAirlineName (code : String) : String :=
  match List.lookup code AIRLINE_NAMES with
  | some airline_name => airline_name ++ " (" ++ code ++ ")"
  | none => code

/-- Embedding of `RAGEngine._extract_location_code`: normalize (upper + strip), then
(a) 3-letter codes go through `CITY_TO_AIRPORT` (identity when absent),
(b) other strings go through the city-name map, falling back to the
first three letters. -/
def extractLocationCode (location_text : String) : String :=
  let location := pyStripWs (pyUpper location_text)
  if location.length = 3 then
    (List.lookup location CITY_TO_AIRPORT).getD location
  else
    (List.lookup location CITY_NAME_MAPPING).getD (strTake location 3)

/-!  ## Regex models: dates and flight routes (`enhance_query_with_realtime_data`)  -/

/-- Match of `\d{4}-\d{2}-\d{2}` at the head of the list, returning the
ten matched characters. -/
def dateAt : List Char → Option (List Char)
  | a :: b :: c :: d :: h1 :: e :: f :: h2 :: g :: h :: _ =>
    if a.isDigit && b.isDigit && c.isDigit && d.isDigit && h1 = '-' &&
       e.isDigit && f.isDigit && h2 = '-' && g.isDigit && h.isDigit then
      some [a, b, c, d, h1, e, f, h2, g, h]
    else none
  | _ => none

/-- Leftmost `\d{4}-\d{2}-\d{2}` match (`re.search` at lines 229–231). -/
def findDateL : List Char → Option (List Char)
  | [] => none
  | c :: rest =>
    match dateAt (c :: rest) with
    | some ds => some ds
    | none => findDateL rest

/-- First ISO date in the query, as used for the flight departure date. -/
def findFirstDate (q : String) : Option String := (findDateL q.data).map String.mk

/-- Fuel-driven scanner behind `findAllDatesL` (each step consumes at
least one character, so the input length is enough fuel; the explicit
fuel keeps the recursion structural and kernel-reducible). -/
def findAllDatesGo : Nat → List Char → List (List Char)
  | 0, _ => []
  | _, [] => []
  | fuel + 1, c :: rest =>
    match dateAt (c :: rest) with
    | some ds => ds :: findAllDatesGo fuel (rest.drop 9)
    | none => findAllDatesGo fuel rest

/-- Model of `re.findall` for the date pattern: all non-overlapping
matches, left to right. -/
def findAllDatesL (l : List Char) : List (List Char) :=
  findAllDatesGo l.length l

/-- All ISO dates in the query (hotel check-in/check-out extraction). -/
def findAllDates (q : String) : List String := (findAllDatesL q.data).map String.mk

/-- Case-insensitive match of one literal letter. -/
def icIs (c lo up : Char) : Bool := c = lo || c = up

/-- Match of `([A-Z]{3})\s+to\s+([A-Z]{3})` (with `re.IGNORECASE`) at the
head of the list; the captured groups keep their original characters.
Greedy `\s+` needs no backtracking here because the following literal
starts with a non-whitespace character. -/
def matchCodePair (l : List Char) : Option (String × String) :=
  match l with
  | a :: b :: c :: rest =>
    if a.isAlpha && b.isAlpha && c.isAlpha then
      match rest with
      | r :: _ =>
        if isPyWs r then
          match rest.dropWhile isPyWs with
          | t :: o :: rest2 =>
            if icIs t 't' 'T' && icIs o 'o' 'O' then
              match rest2 with
              | s :: _ =>
                if isPyWs s then
                  match rest2.dropWhile isPyWs with
                  | x :: y :: z :: _ =>
                    if x.isAlpha && y.isAlpha && z.isAlpha then
                      some (String.mk [a, b, c], String.mk [x, y, z])
                    else none
                  | _ => none
                else none
              | [] => none
            else none
          | _ => none
        else none
      | [] => none
    else none
  | _ => none

/-- Match of the optional `from\s+` at the head of the list, returning
the remainder after the whitespace run. -/
def afterFromWs (l : List Char) : Option (List Char) :=
  match l with
  | f :: r :: o :: m :: rest =>
    if icIs f 'f' 'F' && icIs r 'r' 'R' && icIs o 'o' 'O' && icIs m 'm' 'M' then
      match rest with
      | c :: _ => if isPyWs c then some (rest.dropWhile isPyWs) else none
      | [] => none
    else none
  | _ => none

/-- Leftmost match of pattern 1,
`(?:from\s+)?([A-Z]{3})\s+to\s+([A-Z]{3})` with `re.IGNORECASE`
(line 210): at each position the engine first tries with the optional
`from\s+` consumed, then without, then moves right. -/
def findPattern1 : List Char → Option (String × String)
  | [] => none
  | c :: rest =>
    match afterFromWs (c :: rest) with
    | some rem =>
      match matchCodePair rem with
      | some p => some p
      | none =>
        match matchCodePair (c :: rest) with
        | some p => some p
        | none => findPattern1 rest
    | none =>
      match matchCodePair (c :: rest) with
      | some p => some p
      | none => findPattern1 rest

/-- Match of the tail `(?:\s+on|\s+\d)` of pattern 2 at the head of the
list.  Both alternatives open with `\s+` followed by a non-whitespace
character, so only the maximal whitespace run can succeed. -/
def matchTail (l : List Char) : Bool :=
  match l with
  | c :: _ =>
    isPyWs c &&
      (match l.dropWhile isPyWs with
       | o :: n :: _ => (icIs o 'o' 'O' && icIs n 'n' 'N') || o.isDigit
       | [o] => o.isDigit
       | [] => false)
  | [] => false

/-- Lazy expansion of the second group `([A-Za-z\s]+?)` of pattern 2:
grow one character at a time and stop at the first point where the tail
matches. -/
def findG2 (acc : List Char) : List Char → Option (List Char)
  | [] => none
  | c :: rest =>
    if c.isAlpha || isPyWs c then
      if matchTail rest then some (acc ++ [c])
      else findG2 (acc ++ [c]) rest
    else none

/-- Greedy `\s+` before the second group: try the longest whitespace run
first, backtracking one character at a time. -/
def tryWsThenG2 : Nat → List Char → Option (List Char)
  | 0, _ => none
  | k + 1, l =>
    match findG2 [] (l.drop (k + 1)) with
    | some g2 => some g2
    | none => tryWsThenG2 k l

/-- Continuation of pattern 2 after the literal `to`. -/
def afterTo (l : List Char) : Option (List Char) :=
  match l with
  | c :: _ =>
    if isPyWs c then tryWsThenG2 (l.takeWhile isPyWs).length l else none
  | [] => none

/-- Match of the literal `to` (ignorecase) then the rest of pattern 2. -/
def tryToAt (l : List Char) : Option (List Char) :=
  match l with
  | t :: o :: rest => if icIs t 't' 'T' && icIs o 'o' 'O' then afterTo rest else none
  | _ => none

/-- Greedy `\s+` between the first group and `to`, longest run first. -/
def tryWsThenTo : Nat → List Char → Option (List Char)
  | 0, _ => none
  | k + 1, l =>
    match tryToAt (l.drop (k + 1)) with
    | some g2 => some g2
    | none => tryWsThenTo k l

/-- Separator-and-`to` continuation after the first group of pattern 2. -/
def sepThenTo (l : List Char) : Option (List Char) :=
  match l with
  | c :: _ => if isPyWs c then tryWsThenTo (l.takeWhile isPyWs).length l else none
  | [] => none

/-- Lazy expansion of the first group `([A-Za-z\s]+?)` of pattern 2. -/
def findG1 (acc : List Char) : List Char → Option (List Char × List Char)
  | [] => none
  | c :: rest =>
    if c.isAlpha || isPyWs c then
      match sepThenTo rest with
      | some g2 => some (acc ++ [c], g2)
      | none => findG1 (acc ++ [c]) rest
    else none

/-- Greedy `\s+` after the opening literal `from` of pattern 2. -/
def tryWsThenG1 : Nat → List Char → Option (List Char × List Char)
  | 0, _ => none
  | k + 1, l =>
    match findG1 [] (l.drop (k + 1)) with
    | some p => some p
    | none => tryWsThenG1 k l

/-- Match of the whole pattern 2 anchored at the head of the list. -/
def fromHere (l : List Char) : Option (List Char × List Char) :=
  match l with
  | f :: r :: o :: m :: rest =>
    if icIs f 'f' 'F' && icIs r 'r' 'R' && icIs o 'o' 'O' && icIs m 'm' 'M' then
      match rest with
      | c :: _ => if isPyWs c then tryWsThenG1 (rest.takeWhile isPyWs).length rest else none
      | [] => none
    else none
  | _ => none

/-- Leftmost match of pattern 2,
`from\s+([A-Za-z\s]+?)\s+to\s+([A-Za-z\s]+?)(?:\s+on|\s+\d)` with
`re.IGNORECASE` (line 215). -/
def findPattern2 : List Char → Option (String × String)
  | [] => none
  | c :: rest =>
    match fromHere (c :: rest) with
    | some p => some (String.mk p.1, String.mk p.2)
    | none => findPattern2 rest

/-- Flight-route extraction (lines 209–216): pattern 1 first, pattern 2
only when pattern 1 has no match. -/
def findRoute (q : String) : Option (String × String) :=
  match findPattern1 q.data with
  | some p => some p
  | none => findPattern2 q.data

/-- The `(origin, destination)` pair actually passed on to the flight
search (lines 219–224): each captured group is stripped and resolved via
`_extract_location_code`. -/
def flightRouteCodes (q : String) : Option (String × String) :=
  (findRoute q).map (fun p =>
    (extractLocationCode (pyStripWs p.1), extractLocationCode (pyStripWs p.2)))

/-!  ## Gateway data model (`TravelDataAPI`)  -/

/-- One flight segment of an Amadeus offer (the fields the source reads). -/
structure Segment where
  carrierCode : String := ""
  departureAt : String := ""
  arrivalAt : String := ""
  deriving DecidableEq

/-- One raw Amadeus flight offer; the source only ever reads
`itineraries[0]`, so that single itinerary's `duration` and `segments`
are carried inline. -/
structure Offer where
  priceTotal : String := ""
  priceCurrency : String := ""
  duration : String := ""
  segments : List Segment := []
  deriving DecidableEq

/-- Parsed flight entry (the dict built at lines 91–99 of `travel_data.py`). -/
structure Flight where
  price : String := ""
  carrier : String := ""
  carrier_name : String := ""
  duration : String := ""
  stops : Nat := 0
  departure : String := ""
  arrival : String := ""
  deriving DecidableEq

/-- Result dict of `search_flights`; a Python dict key that a branch does
not set is `none` (for `error` and `message`) or the `.get` default
(for `count`). -/
structure FlightData where
  error : Option String := none
  origin : String := ""
  destination : String := ""
  departure_date : String := ""
  flights : List Flight := []
  count : Nat := 0
  message : Option String := none
  deriving DecidableEq

/-- Parsed hotel entry of `get_hotel_offers`. -/
structure Hotel where
  name : String := ""
  price_per_night : String := ""
  rating : String := ""
  deriving DecidableEq

/-- Result dict of `get_hotel_offers`. -/
structure HotelData where
  error : Option String := none
  city : String := ""
  check_in : String := ""
  check_out : String := ""
  hotels : List Hotel := []
  count : Nat := 0
  deriving DecidableEq

/-- One raw hotel offer; hotel name and rating are optional in the
payload (`.get` defaults apply). -/
structure HotelOfferRaw where
  name : Option String := none
  rating : Option String := none
  priceTotal : String := ""
  priceCurrency : String := ""
  deriving DecidableEq

/-- Result dict of `get_weather_data`.  The numeric payloads (floats in
the source) are carried as integers; no claim computes with them. -/
structure WeatherData where
  error : Option String := none
  city : String := ""
  country : String := ""
  current_temp : Int := 0
  humidity : Int := 0
  max_temps : List Int := []
  deriving DecidableEq

/-- Result dict of `get_currency_rates` (rate values carried as the
strings they are rendered as). -/
structure CurrencyData where
  error : Option String := none
  base : String := ""
  rates : List (String × String) := []
  timestamp : String := ""
  deriving DecidableEq

/-- The configured Amadeus client, as the responses it produces for a
given request.  A transport fault of a configured flight search surfaces
as `Except.error` carrying the HTTP status (the `ResponseError` branch
at line 126). -/
structure Provider where
  flightOffers : String → String → String → Except Nat (List Offer)
  hotelsByCity : String → List String
  hotelOffersSearch : List String → String → String → List HotelOfferRaw

/-- Per-offer parsing loop of `search_flights` (lines 85–99). -/
def parseOffer (offer : Offer) : Flight :=
  let first_segment := offer.segments.headD {}
  { price := offer.priceTotal ++ " " ++ offer.priceCurrency
    carrier := first_segment.carrierCode
    carrier_name := getAirlineName first_segment.carrierCode
    duration := formatDuration offer.duration
    stops := offer.segments.length - 1
    departure := first_segment.departureAt
    arrival := (offer.segments.getLastD {}).arrivalAt }

/-- Embedding of `TravelDataAPI.search_flights`.  `amadeus = none` is
the unconfigured client (lines 54–55).  An offer with no segments would
raise an IndexError in the source, caught by the generic handler
(line 131); the guard reproduces that as the corresponding error dict. -/
def searchFlights (amadeus : Option Provider)
    (origin destination departure_date : String) : FlightData :=
  match amadeus with
  | none => { error := some "Amadeus API not configured" }
  | some prov =>
    match prov.flightOffers origin destination departure_date with
    | .error status => { error := some ("Amadeus API error: Status " ++ toString status) }
    | .ok data =>
      if data.isEmpty then
        { origin, destination, departure_date, flights := [], count := 0,
          message := some "No flights found for this route/date" }
      else if (data.take 3).any (fun o => o.segments.isEmpty) then
        { error := some "list index out of range" }
      else
        let flights := (data.take 3).map parseOffer
        { origin, destination, departure_date, flights, count := flights.length }

/-- Embedding of `TravelDataAPI.get_hotel_offers` (transport faults of a
configured provider are not modelled; no claim depends on them). -/
def getHotelOffers (amadeus : Option Provider)
    (city_code check_in check_out : String) : HotelData :=
  match amadeus with
  | none => { error := some "Amadeus API not configured" }
  | some prov =>
    let hotelsFound := prov.hotelsByCity city_code
    if hotelsFound.isEmpty then { error := some "No hotels found" }
    else
      let hotel_ids := hotelsFound.take 5
      let offers := prov.hotelOffersSearch hotel_ids check_in check_out
      let hotels := (offers.take 3).map (fun offer =>
        { name := offer.name.getD "Unknown"
          price_per_night := offer.priceTotal ++ " " ++ offer.priceCurrency
          rating := offer.rating.getD "N/A" : Hotel })
      { city := city_code, check_in, check_out, hotels, count := hotels.length }

/-!  ## Rendering (`TravelDataAPI.format_for_rag`, one function per branch)  -/

/-- Weather branch of `format_for_rag`. -/
def formatWeatherForRag (data : WeatherData) : String :=
  match data.error with
  | some e => "Weather data unavailable: " ++ e
  | none =>
    "\nCurrent Weather for " ++ data.city ++ ", " ++ data.country
      ++ ":\n- Temperature: " ++ toString data.current_temp
      ++ "°C\n- Humidity: " ++ toString data.humidity
      ++ "%\n- 7-Day Forecast: Max temps " ++ toString (data.max_temps.headD 0)
      ++ "-" ++ toString (data.max_temps.foldl max 0) ++ "°C\n"

/-- Currency branch of `format_for_rag`. -/
def formatCurrencyForRag (data : CurrencyData) : String :=
  match data.error with
  | some e => "Currency data unavailable: " ++ e
  | none =>
    let common_currencies := ["EUR", "GBP", "JPY", "AUD", "CAD", "INR"]
    let rates_text := pyJoin "\n"
      ((common_currencies.filter (fun curr => (List.lookup curr data.rates).isSome)).map
        (fun curr => "- 1 " ++ data.base ++ " = "
          ++ ((List.lookup curr data.rates).getD "N/A") ++ " " ++ curr))
    "\nExchange Rates (Base: " ++ data.base ++ "):\n" ++ rates_text
      ++ "\nLast updated: " ++ data.timestamp ++ "\n"

/-- One numbered entry of the flight list (the f-string at lines
312–315): the Euro sign is hard-coded and only the first
whitespace-separated token of the stored price string is shown. -/
def entryLine (p : Nat × Flight) : String :=
  let i := p.1
  let f := p.2
  toString (i + 1) ++ ". **" ++ f.carrier_name ++ "** - €" ++ firstTok f.price
    ++ "\n   Duration: " ++ f.duration ++ " (" ++ toString f.stops ++ " stop"
    ++ (if f.stops != 1 then "s" else "") ++ ")\n   Departure: "
    ++ replaceT (strTake f.departure 16) ++ "\n   Arrival: "
    ++ replaceT (strTake f.arrival 16)

/-- Numbered flight list joined with newlines (lines 311–317). -/
def flightsText (flights : List Flight) : String :=
  pyJoin "\n" (flights.enum.map entryLine)

/-- Flights branch of `format_for_rag` (lines 303–328). -/
def formatFlightsForRag (data : FlightData) : String :=
  match data.error with
  | some e => "Flight data unavailable: " ++ e
  | none =>
    if data.count = 0 then
      "Flight search from " ++ data.origin ++ " to " ++ data.destination ++ ": "
        ++ data.message.getD "No flights found"
    else
      "\n✈️ REAL-TIME FLIGHT DATA:\nRoute: " ++ data.origin ++ " → " ++ data.destination
        ++ "\nDate: " ++ data.departure_date ++ "\nFound " ++ toString data.count
        ++ " available flights:\n\n" ++ flightsText data.flights
        ++ "\n\nPrices shown are in Euros. Book directly with airlines or travel booking sites for confirmation.\n"

/-- Hotels branch of `format_for_rag`. -/
def formatHotelsForRag (data : HotelData) : String :=
  match data.error with
  | some e => "Hotel data unavailable: " ++ e
  | none =>
    if data.count = 0 then "No hotels found."
    else
      let hotels_text := pyJoin "\n" (data.hotels.map (fun h =>
        "- " ++ h.name ++ ": " ++ h.price_per_night ++ "/night (Rating: " ++ h.rating ++ ")"))
      "\nHotel Options in " ++ data.city ++ ":\nCheck-in: " ++ data.check_in
        ++ ", Check-out: " ++ data.check_out ++ "\n" ++ hotels_text ++ "\n"

/-!  ## Query intent extraction and context composition (`RAGEngine`)  -/

/-- Topic-adjacent cue words gating city extraction (line 191). -/
def CITY_KEYWORDS : List String :=
  ["weather", "temperature", "climate", "visit", "trip", "travel", "going", "plan",
   "flight", "hotel"]

/-- Stoplist of interrogative/auxiliary words (line 202). -/
def SKIP_WORDS : List String :=
  ["What", "Where", "When", "How", "Why", "The", "Is", "Are", "Can", "Should",
   "Will", "Show", "Tell", "Find", "Get", "Book"]

/-- Test `word[0].isupper()` (ASCII fragment). -/
def firstIsUpper (w : String) : Bool :=
  match w.data with
  | c :: _ => c.isUpper
  | [] => false

/-- City extraction (lines 188–203): gated on a cue word, keeps
capitalized words longer than 2 with `?,!.` stripped, minus the
stoplist. -/
def extractCities (q : String) : List String :=
  let query_lower := pyLower q
  let has_city_context := CITY_KEYWORDS.any (fun k => containsSub query_lower k)
  if has_city_context then
    let words := pySplit q
    let potential_cities := (words.filter
      (fun w => w != "" && firstIsUpper w && w.length > 2)).map
      (fun w => pyStrip w ['?', ',', '!', '.'])
    potential_cities.filter (fun city => !SKIP_WORDS.contains city)
  else []

/-- FLIGHT topic flag (line 206). -/
def topicFlight (q : String) : Bool :=
  ["flight", "fly", "flying", "airline"].any (fun w => containsSub (pyLower q) w)

/-- HOTEL topic flag (line 249). -/
def topicHotel (q : String) : Bool :=
  ["hotel", "accommodation", "stay", "lodging", "resort"].any
    (fun w => containsSub (pyLower q) w)

/-- WEATHER topic flag (line 272). -/
def topicWeather (q : String) : Bool :=
  ["weather", "temperature", "climate"].any (fun w => containsSub (pyLower q) w)

/-- CURRENCY topic flag (line 283). -/
def topicCurrency (q : String) : Bool :=
  ["budget", "cost", "price", "expensive", "currency", "exchange", "money",
   "dollar", "euro"].any (fun w => containsSub (pyLower q) w)

/-- The external world as seen by one composition request: the optional
Amadeus client plus the responses of the keyless weather and currency
endpoints.  Network calls are modelled as oracle response functions; the
`try/except` bodies of `get_weather_data` / `get_currency_rates` reduce
each call to an error-or-data value, which the oracle supplies
directly. -/
structure Gateways where
  amadeus : Option Provider
  weather : String → WeatherData
  currency : String → CurrencyData

/-- Error message selection of the failed-flight branch (line 244):
`flight_data.get('error') or flight_data.get('message', 'No flights found')`,
with Python truthiness of the `or`. -/
def flightErrMsg (fd : FlightData) : String :=
  match fd.error with
  | some e => if e ≠ "" then e else fd.message.getD "No flights found"
  | none => fd.message.getD "No flights found"

/-- Fetch-and-render step of the FLIGHT branch (lines 235–246): append
the rendered block on success, the explicit no-data line otherwise. -/
def flightFetchBlock (gw : Gateways) (origin destination departure_date : String) :
    List String :=
  let flight_data := searchFlights gw.amadeus origin destination departure_date
  if flight_data.error = none ∧ flight_data.count > 0 then
    [formatFlightsForRag flight_data]
  else
    ["Flight search attempted but no data available: " ++ flightErrMsg flight_data]

/-- FLIGHT SEARCH branch of `enhance_query_with_realtime_data`
(lines 205–246): blocks it appends to `additional_context`. -/
def flightBlocks (q : String) (gw : Gateways) : List String :=
  if topicFlight q then
    match findRoute q with
    | some (g1, g2) =>
      let origin := extractLocationCode (pyStripWs g1)
      let destination := extractLocationCode (pyStripWs g2)
      match findFirstDate q with
      | some departure_date => flightFetchBlock gw origin destination departure_date
      | none => []
    | none => []
  else []

/-- HOTEL SEARCH branch (lines 248–269); `cities` is the extracted city
list computed once per request. -/
def hotelBlocks (q : String) (gw : Gateways) (cities : List String) : List String :=
  if topicHotel q then
    match cities with
    | [] => []
    | city :: _ =>
      let city_code := pyUpper (strTake city 3)
      match findAllDates q with
      | d1 :: d2 :: _ =>
        let hotel_data := getHotelOffers gw.amadeus city_code d1 d2
        if hotel_data.error = none then [formatHotelsForRag hotel_data] else []
      | _ => []
  else []

/-- WEATHER DATA branch (lines 271–280). -/
def weatherBlocks (q : String) (gw : Gateways) (cities : List String) : List String :=
  match cities with
  | [] => []
  | city :: _ =>
    if topicWeather q then
      let weather_data := gw.weather city
      if weather_data.error = none then [formatWeatherForRag weather_data] else []
    else []

/-- CURRENCY DATA branch (lines 282–288). -/
def currencyBlocks (q : String) (gw : Gateways) : List String :=
  if topicCurrency q then
    let currency_data := gw.currency "USD"
    if currency_data.error = none then [formatCurrencyForRag currency_data] else []
  else []

/-- Embedding of `RAGEngine.enhance_query_with_realtime_data`
(lines 182–293), returning the list of appended context blocks
(`additional_context`); `enhanceQuery` is their blank-line join. -/
def enhanceBlocks (q : String) (gw : Gateways) : List String :=
  let cities := extractCities q
  flightBlocks q gw ++ hotelBlocks q gw cities
    ++ weatherBlocks q gw cities ++ currencyBlocks q gw

/-- Real-time context string handed back to `generate_response`
(line 290). -/
def enhanceQuery (q : String) (gw : Gateways) : String :=
  pyJoin "\n\n" (enhanceBlocks q gw)

/-- Context assembly in `generate_response` (lines 156–161): join the
retrieved documents with blank lines and prepend the real-time context
when nonempty.  No truncation of any kind is applied. -/
def buildContext (realtime_context : String) (docs : List String) : String :=
  let context := pyJoin "\n\n" docs
  if realtime_context ≠ "" then realtime_context ++ "\n\n" ++ context else context

/-!  ## Concrete fixtures used by witnesses and counterexamples  -/

/-- A configured provider whose flight search returns no offers. -/
def emptyProvider : Provider :=
  ⟨fun _ _ _ => .ok [], fun _ => [], fun _ _ _ => []⟩

/-- A demo offer with one segment. -/
def demoOffer : Offer :=
  { priceTotal := "450.00", priceCurrency := "USD", duration := "PT7H30M",
    segments := [{ carrierCode := "BA", departureAt := "2025-06-01T08:30:00",
                   arrivalAt := "2025-06-01T16:00:00" }] }

/-- A configured provider with data for every request. -/
def okProvider : Provider :=
  ⟨fun _ _ _ => .ok [demoOffer], fun _ => ["HOTEL1"],
   fun _ _ _ => [{ name := some "Grand Demo", rating := some "4",
                   priceTotal := "210.00", priceCurrency := "EUR" }]⟩

/-- Gateways where the Amadeus client is unconfigured and the keyless
endpoints fail. -/
def errGateways : Gateways :=
  ⟨none, fun _ => { error := some "City not found" },
   fun _ => { error := some "timeout" }⟩

/-- Gateways where every fetch succeeds. -/
def okGateways : Gateways :=
  ⟨some okProvider,
   fun city => { city := city, country := "Demoland", current_temp := 21,
                 humidity := 40, max_temps := [22, 23, 24, 21, 20, 19, 18] },
   fun base => { base := base, rates := [("EUR", "0.92")], timestamp := "2025-06-01" }⟩

/-!  ## Supporting lemmas  -/

/-- A successful lookup key/value pair is a member of the table. -/
theorem mem_of_lookup {α β : Type} [BEq α] [LawfulBEq α] {k : α} {v : β}
    {l : List (α × β)} (h : List.lookup k l = some v) : (k, v) ∈ l := by
  obtain ⟨l₁, l₂, rfl, -⟩ := List.lookup_eq_some_iff.mp h
  simp

/-!  ## C5: unconfigured provider behaviour  -/

/-- C5: with the Amadeus credentials absent (`amadeus = none`), every
flight and hotel fetch returns the error dict carrying the stable
`Amadeus API not configured` message, for all inputs; repeated calls
with the same inputs return the identical value (the fetch is a pure
function of its inputs, so no state can change between calls), and no
exception can escape (the embedding is a total function). -/
theorem c5_unconfigured_fetch_stable (o d dt city ci co : String) :
    searchFlights none o d dt = { error := some "Amadeus API not configured" } ∧
    getHotelOffers none city ci co = { error := some "Amadeus API not configured" } ∧
    searchFlights none o d dt = searchFlights none o d dt ∧
    getHotelOffers none city ci co = getHotelOffers none city ci co :=
  ⟨rfl, rfl, rfl, rfl⟩

/-!  ## C3: the claimed character budget does not exist  -/

/-- C3 counterexample: no character budget bounds the composed context —
for every candidate budget there are inputs whose composed context is
longer, because `generate_response` applies no truncation at all.  This
refutes the claim that a composed context exceeding the configured
budget is returned with length at most that budget. -/
theorem c3_counterexample :
    ¬ ∃ budget : Nat, ∀ (realtime : String) (docs : List String),
        (buildContext realtime docs).length ≤ budget := by
  rintro ⟨budget, hB⟩
  set r : String := String.mk (List.replicate (budget + 1) 'a') with hr
  have hne : r ≠ "" := by
    intro hc
    have hdata : (List.replicate (budget + 1) 'a') = ([] : List Char) :=
      congrArg String.data hc
    simpa using congrArg List.length hdata
  have hlen : (buildContext r []).length = budget + 3 := by
    unfold buildContext
    rw [if_pos hne]
    show (r ++ "\n\n" ++ "").length = budget + 3
    rw [String.length_append, String.length_append]
    have : r.length = budget + 1 := by
      show (String.mk (List.replicate (budget + 1) 'a')).length = budget + 1
      simp [String.length]
    rw [this]
    rfl
  have := hB r []
  omega

/-- C3 amended: the composer applies no truncation: whenever real-time
context is present, the returned context is the full concatenation of
the real-time string, a blank line and all retrieved passages, and its
length is the full sum — no budget, no dropped blocks, no marker. -/
theorem c3_no_truncation (realtime : String) (docs : List String)
    (h : realtime ≠ "") :
    buildContext realtime docs = realtime ++ "\n\n" ++ pyJoin "\n\n" docs ∧
    (buildContext realtime docs).length
      = realtime.length + 2 + (pyJoin "\n\n" docs).length := by
  unfold buildContext
  rw [if_pos h]
  refine ⟨rfl, ?_⟩
  rw [String.length_append, String.length_append]
  rfl

/-- C3 amended, witness at a concrete input. -/
theorem c3_no_truncation_witness :
    buildContext "live data" ["passage one", "passage two"]
      = "live data\n\npassage one\n\npassage two" := by
  have h := c3_no_truncation "live data" ["passage one", "passage two"] (by decide)
  rw [h.1]
  rfl

/-!  ## C7: zero flight offers is a success, not an error  -/

/-- C7: when the configured provider responds with zero offers, the
fetch returns a success dict (no `error` key) with an empty offer list,
count 0 and the explicit empty-result message, and the rendered block
states that no flights were found for the route/date — an exact string
with no prices in it. -/
theorem c7_zero_offers_success (prov : Provider) (o d dt : String)
    (h : prov.flightOffers o d dt = Except.ok []) :
    searchFlights (some prov) o d dt =
      { origin := o, destination := d, departure_date := dt, flights := [],
        count := 0, message := some "No flights found for this route/date" } ∧
    formatFlightsForRag (searchFlights (some prov) o d dt)
      = "Flight search from " ++ o ++ " to " ++ d ++ ": "
          ++ "No flights found for this route/date" := by
  have h1 : searchFlights (some prov) o d dt =
      { origin := o, destination := d, departure_date := dt, flights := [],
        count := 0, message := some "No flights found for this route/date" } := by
    simp only [searchFlights]
    rw [h]
    rfl
  refine ⟨h1, ?_⟩
  rw [h1]
  rfl

/-- C7 witness at a concrete provider and route. -/
theorem c7_zero_offers_success_witness :
    searchFlights (some emptyProvider) "CDG" "JFK" "2025-06-01" =
      { origin := "CDG", destination := "JFK", departure_date := "2025-06-01",
        flights := [], count := 0,
        message := some "No flights found for this route/date" } ∧
    formatFlightsForRag (searchFlights (some emptyProvider) "CDG" "JFK" "2025-06-01")
      = "Flight search from CDG to JFK: No flights found for this route/date" := by
  have h := c7_zero_offers_success emptyProvider "CDG" "JFK" "2025-06-01" rfl
  exact ⟨h.1, by rw [h.2]; rfl⟩

/-!  ## C9: idempotence of the location-code resolver  -/

/-- Table facts: every key of the 3-letter table has length 3 and every
value of either table is a fixed point of the resolver; every key of the
city-name table has length other than 3. -/
theorem resolver_table_facts :
    (∀ p ∈ CITY_TO_AIRPORT, p.1.length = 3 ∧ extractLocationCode p.2 = p.2) ∧
    (∀ p ∈ CITY_NAME_MAPPING, p.1.length ≠ 3 ∧ extractLocationCode p.2 = p.2) := by
  decide

/-- C9 counterexample: the resolver is not idempotent on every input.
`PARTY` falls through to the first-3-letters fallback, giving `PAR`,
which the 3-letter table then rewrites to `CDG` on a second
application. -/
theorem c9_counterexample :
    extractLocationCode "PARTY" = "PAR" ∧
    extractLocationCode (extractLocationCode "PARTY") = "CDG" ∧
    extractLocationCode (extractLocationCode "PARTY") ≠ extractLocationCode "PARTY" := by
  decide

/-- C9 amended: resolved codes produced by the 3-letter table or the
city-name table are fixed points, so the resolver is idempotent on every
input that hits those branches; only the first-3-letters fallback can
break idempotence. -/
theorem c9_idempotent_on_table_hits (x : String)
    (h : (List.lookup (pyStripWs (pyUpper x)) CITY_TO_AIRPORT).isSome ∨
         (List.lookup (pyStripWs (pyUpper x)) CITY_NAME_MAPPING).isSome) :
    extractLocationCode (extractLocationCode x) = extractLocationCode x := by
  rcases h with h | h
  · obtain ⟨v, hv⟩ := Option.isSome_iff_exists.mp h
    obtain ⟨hlen, hfix⟩ := resolver_table_facts.1 _ (mem_of_lookup hv)
    have hx : extractLocationCode x = v := by
      unfold extractLocationCode
      rw [if_pos hlen, hv]
      rfl
    rw [hx, hfix]
  · obtain ⟨v, hv⟩ := Option.isSome_iff_exists.mp h
    obtain ⟨hlen, hfix⟩ := resolver_table_facts.2 _ (mem_of_lookup hv)
    have hx : extractLocationCode x = v := by
      unfold extractLocationCode
      rw [if_neg hlen, hv]
      rfl
    rw [hx, hfix]

/-- C9 amended, witness: a 3-letter-table hit and a city-name-table hit,
each a fixed point after one resolution. -/
theorem c9_idempotent_on_table_hits_witness :
    extractLocationCode (extractLocationCode "LON") = extractLocationCode "LON" ∧
    extractLocationCode (extractLocationCode "Paris") = extractLocationCode "Paris" :=
  ⟨c9_idempotent_on_table_hits "LON" (Or.inl (by decide)),
   c9_idempotent_on_table_hits "Paris" (Or.inr (by decide))⟩

/-!  ## C8: ISO-8601 duration formatting  -/

/-- Scanning a digit run just accumulates it. -/
theorem findNumBefore_digits (marker : Char) :
    ∀ (ds : List Char), (∀ c ∈ ds, c.isDigit = true) →
      ∀ (acc rest : List Char),
        findNumBefore marker acc (ds ++ rest) = findNumBefore marker (acc ++ ds) rest := by
  intro ds
  induction ds with
  | nil => intro _ acc rest; simp
  | cons c t ih =>
    intro hd acc rest
    have hc : c.isDigit = true := hd c (List.mem_cons_self c t)
    rw [List.cons_append]
    show (if c.isDigit then findNumBefore marker (acc ++ [c]) (t ++ rest)
          else if c = marker && acc ≠ [] then some acc
          else findNumBefore marker [] (t ++ rest)) = _
    rw [if_pos hc]
    rw [ih (fun d hdm => hd d (List.mem_cons_of_mem c hdm)) (acc ++ [c]) rest]
    rw [← List.append_cons]

/-- C8: on every duration of the form `PT<H>H<M>M` with nonempty decimal
digit groups the formatter returns `<H>h <M>m`; with only an hours
component it returns `<H>h`, and with only a minutes component `<M>m`. -/
theorem c8_duration_format (h m : List Char)
    (hh : h ≠ []) (hm : m ≠ [])
    (hhd : ∀ c ∈ h, c.isDigit = true) (hmd : ∀ c ∈ m, c.isDigit = true) :
    formatDuration (String.mk ('P' :: 'T' :: (h ++ 'H' :: (m ++ ['M']))))
      = String.mk h ++ "h " ++ String.mk m ++ "m" ∧
    formatDuration (String.mk ('P' :: 'T' :: (h ++ ['H'])))
      = String.mk h ++ "h" ∧
    formatDuration (String.mk ('P' :: 'T' :: (m ++ ['M'])))
      = String.mk m ++ "m" := by
  obtain ⟨c0, t0, rfl⟩ := List.exists_cons_of_ne_nil hh
  obtain ⟨c1, t1, rfl⟩ := List.exists_cons_of_ne_nil hm
  have hours₁ : findNumBefore 'H' []
      (String.mk ('P' :: 'T' :: ((c0 :: t0) ++ 'H' :: ((c1 :: t1) ++ ['M'])))).data
      = some (c0 :: t0) := by
    show findNumBefore 'H' [] ((c0 :: t0) ++ 'H' :: ((c1 :: t1) ++ ['M'])) = _
    rw [findNumBefore_digits 'H' _ hhd [] _, List.nil_append]
    rfl
  have minutes₁ : findNumBefore 'M' []
      (String.mk ('P' :: 'T' :: ((c0 :: t0) ++ 'H' :: ((c1 :: t1) ++ ['M'])))).data
      = some (c1 :: t1) := by
    show findNumBefore 'M' [] ((c0 :: t0) ++ 'H' :: ((c1 :: t1) ++ ['M'])) = _
    rw [findNumBefore_digits 'M' _ hhd [] _, List.nil_append]
    show findNumBefore 'M' [] ((c1 :: t1) ++ ['M']) = _
    rw [findNumBefore_digits 'M' _ hmd [] _, List.nil_append]
    rfl
  have hours₂ : findNumBefore 'H' []
      (String.mk ('P' :: 'T' :: ((c0 :: t0) ++ ['H']))).data = some (c0 :: t0) := by
    show findNumBefore 'H' [] ((c0 :: t0) ++ ['H']) = _
    rw [findNumBefore_digits 'H' _ hhd [] _, List.nil_append]
    rfl
  have minutes₂ : findNumBefore 'M' []
      (String.mk ('P' :: 'T' :: ((c0 :: t0) ++ ['H']))).data = none := by
    show findNumBefore 'M' [] ((c0 :: t0) ++ ['H']) = _
    rw [findNumBefore_digits 'M' _ hhd [] _, List.nil_append]
    rfl
  have hours₃ : findNumBefore 'H' []
      (String.mk ('P' :: 'T' :: ((c1 :: t1) ++ ['M']))).data = none := by
    show findNumBefore 'H' [] ((c1 :: t1) ++ ['M']) = _
    rw [findNumBefore_digits 'H' _ hmd [] _, List.nil_append]
    rfl
  have minutes₃ : findNumBefore 'M' []
      (String.mk ('P' :: 'T' :: ((c1 :: t1) ++ ['M']))).data = some (c1 :: t1) := by
    show findNumBefore 'M' [] ((c1 :: t1) ++ ['M']) = _
    rw [findNumBefore_digits 'M' _ hmd [] _, List.nil_append]
    rfl
  refine ⟨?_, ?_, ?_⟩
  · simp only [formatDuration, hours₁, minutes₁]
  · simp only [formatDuration, hours₂, minutes₂]
  · simp only [formatDuration, hours₃, minutes₃]

/-- C8 witness at concrete durations. -/
theorem c8_duration_format_witness :
    formatDuration "PT14H15M" = "14h 15m" ∧ formatDuration "PT7H" = "7h" ∧
    formatDuration "PT45M" = "45m" := by
  have h1 := c8_duration_format ['1', '4'] ['1', '5']
    (by decide) (by decide) (by decide) (by decide)
  have h2 := c8_duration_format ['7'] ['4', '5']
    (by decide) (by decide) (by decide) (by decide)
  exact ⟨h1.1, h2.2.1, h2.2.2⟩

/-!  ## C2: route extraction for well-formed `from XXX to YYY` queries  -/

/-- The 26 uppercase ASCII letters. -/
def UPPER_AZ : List Char :=
  ['A', 'B', 'C', 'D', 'E', 'F', 'G', 'H', 'I', 'J', 'K', 'L', 'M',
   'N', 'O', 'P', 'Q', 'R', 'S', 'T', 'U', 'V', 'W', 'X', 'Y', 'Z']

/-- Uppercase letters are fixed by upper-casing and are not whitespace. -/
theorem upper_char_fix {c : Char} (h : c ∈ UPPER_AZ) :
    Char.toUpper c = c ∧ isPyWs c = false := by
  fin_cases h <;> exact ⟨rfl, rfl⟩

/-- Dropping while a predicate that fails everywhere changes nothing. -/
theorem dropWhile_eq_self_of_all {p : Char → Bool} {l : List Char}
    (h : ∀ c ∈ l, p c = false) : l.dropWhile p = l := by
  cases l with
  | nil => rfl
  | cons c t =>
    rw [List.dropWhile_cons, h c (List.mem_cons_self c t)]
    simp

/-- Stripping whitespace from a whitespace-free string changes nothing. -/
theorem pyStripWs_fixed {x : String} (h : ∀ c ∈ x.data, isPyWs c = false) :
    pyStripWs x = x := by
  unfold pyStripWs
  rw [dropWhile_eq_self_of_all h,
    dropWhile_eq_self_of_all (fun c hc => h c (List.mem_reverse.mp hc)),
    List.reverse_reverse]

/-- Upper-casing a string of already-uppercase characters changes nothing. -/
theorem pyUpper_fixed {x : String} (h : ∀ c ∈ x.data, Char.toUpper c = c) :
    pyUpper x = x := by
  unfold pyUpper
  rw [List.map_congr_left h]
  simp

/-- C2 counterexample: the extracted pair is not passed on unchanged.
On `flight from PAR to LON on 2025-06-01` the route extractor captures
exactly `(PAR, LON)`, but the pair passed to the flight search is
`(CDG, LHR)` — both codes are rewritten through `CITY_TO_AIRPORT`. -/
theorem c2_counterexample :
    findRoute "flight from PAR to LON on 2025-06-01" = some ("PAR", "LON") ∧
    flightRouteCodes "flight from PAR to LON on 2025-06-01" = some ("CDG", "LHR") ∧
    (("CDG", "LHR") : String × String) ≠ ("PAR", "LON") := by
  decide

/-- C2 amended: for a query whose route extraction captures a pair of
3-letter uppercase tokens `(XXX, YYY)`, the `(origin, destination)`
passed to the flight search is each token mapped through
`CITY_TO_AIRPORT` with identity default — `(table.get XXX XXX,
table.get YYY YYY)`; so the pair is exactly `(XXX, YYY)` unchanged if
and only if each token is a fixed point of that lookup (tokens that are
not keys, and self-mapping keys such as `DXB`, pass unchanged; rewritten
keys such as `PAR` do not).  Extraction is a pure function of the query,
so running it twice yields the same result. -/
theorem c2_route_pair_resolved (q x y : String)
    (hroute : findRoute q = some (x, y))
    (hx : ∀ c ∈ x.data, c ∈ UPPER_AZ) (hy : ∀ c ∈ y.data, c ∈ UPPER_AZ)
    (hx3 : x.length = 3) (hy3 : y.length = 3) :
    flightRouteCodes q
      = some ((List.lookup x CITY_TO_AIRPORT).getD x,
              (List.lookup y CITY_TO_AIRPORT).getD y) ∧
    (flightRouteCodes q = some (x, y) ↔
      (List.lookup x CITY_TO_AIRPORT).getD x = x ∧
      (List.lookup y CITY_TO_AIRPORT).getD y = y) ∧
    flightRouteCodes q = flightRouteCodes q := by
  have fix : ∀ (z : String), (∀ c ∈ z.data, c ∈ UPPER_AZ) → z.length = 3 →
      extractLocationCode (pyStripWs z) = (List.lookup z CITY_TO_AIRPORT).getD z := by
    intro z hz hz3
    have hnw : ∀ c ∈ z.data, isPyWs c = false := fun c hc => (upper_char_fix (hz c hc)).2
    have hup : ∀ c ∈ z.data, Char.toUpper c = c := fun c hc => (upper_char_fix (hz c hc)).1
    rw [pyStripWs_fixed hnw]
    unfold extractLocationCode
    rw [pyUpper_fixed hup, pyStripWs_fixed hnw, if_pos hz3]
  have hmain : flightRouteCodes q
      = some ((List.lookup x CITY_TO_AIRPORT).getD x,
              (List.lookup y CITY_TO_AIRPORT).getD y) := by
    unfold flightRouteCodes
    rw [hroute]
    show some (extractLocationCode (pyStripWs x), extractLocationCode (pyStripWs y))
        = some ((List.lookup x CITY_TO_AIRPORT).getD x,
                (List.lookup y CITY_TO_AIRPORT).getD y)
    rw [fix x hx hx3, fix y hy hy3]
  refine ⟨hmain, ?_, rfl⟩
  rw [hmain]
  simp

/-- C2 amended, witness: a rewritten key (`PAR` → `CDG`) beside a
non-key (`XYZ`), and a pair of self-mapping keys (`DXB`, `SIN`) that
pass unchanged. -/
theorem c2_route_pair_resolved_witness :
    flightRouteCodes "from PAR to XYZ" = some ("CDG", "XYZ") ∧
    flightRouteCodes "flight from DXB to SIN on 2025-06-01" = some ("DXB", "SIN") := by
  have h1 := (c2_route_pair_resolved "from PAR to XYZ" "PAR" "XYZ"
    (by decide) (by decide) (by decide) (by decide) (by decide)).1
  have h2 := (c2_route_pair_resolved "flight from DXB to SIN on 2025-06-01" "DXB" "SIN"
    (by decide) (by decide) (by decide) (by decide) (by decide)).1
  exact ⟨by rw [h1]; rfl, by rw [h2]; rfl⟩

/-!  ## C10: rendered flight prices discard the provider currency  -/

/-- Characters of a first token are never whitespace. -/
theorem firstTok_no_ws (s : String) : ∀ c ∈ (firstTok s).data, isPyWs c = false := by
  intro c hc
  have h : (fun c => !isPyWs c) c = true :=
    List.mem_takeWhile_imp (l := s.data.dropWhile isPyWs) hc
  simpa using h

/-- Taking the first token of a token followed by a space and anything
returns the token. -/
theorem firstTok_token_append (t rest : String) (hne : t.data ≠ [])
    (hnw : ∀ c ∈ t.data, isPyWs c = false) :
    firstTok (t ++ " " ++ rest) = t := by
  unfold firstTok
  have hdata : (t ++ " " ++ rest).data = t.data ++ ' ' :: rest.data := by
    show (t.data ++ [' ']) ++ rest.data = t.data ++ ' ' :: rest.data
    rw [List.append_assoc]
    rfl
  rw [hdata]
  obtain ⟨c0, t0, he⟩ := List.exists_cons_of_ne_nil hne
  rw [he, List.cons_append, List.dropWhile_cons,
    hnw c0 (by rw [he]; exact List.mem_cons_self c0 t0)]
  simp only [Bool.false_eq_true, if_false, ← List.cons_append]
  rw [List.takeWhile_append_of_pos (by
    intro a ha
    rw [← he] at ha
    simp [hnw a ha])]
  show String.mk ((c0 :: t0) ++ []) = t
  rw [List.append_nil, ← he]

/-- Re-tokenizing a token with a new suffix after a space recovers the
token. -/
theorem firstTok_firstTok_append (p c : String) (h : firstTok p ≠ "") :
    firstTok (firstTok p ++ " " ++ c) = firstTok p := by
  apply firstTok_token_append
  · intro hd
    apply h
    show String.mk (firstTok p).data = ""
    rw [hd]
  · exact firstTok_no_ws p

/-- Replacing the currency suffix of a parsed flight's price string
(`<total> <currency>` becomes `<total> c`). -/
def setCurrency (f : Flight) (c : String) : Flight :=
  { f with price := firstTok f.price ++ " " ++ c }

/-- One rendered entry does not depend on the currency suffix. -/
theorem entryLine_setCurrency (n : Nat) (f : Flight) (c c' : String)
    (h : firstTok f.price ≠ "") :
    entryLine (n, setCurrency f c) = entryLine (n, setCurrency f c') := by
  simp only [entryLine, setCurrency]
  rw [firstTok_firstTok_append f.price c h, firstTok_firstTok_append f.price c' h]

/-- The numbered flight list does not depend on the currency suffixes. -/
theorem enumFrom_entry_setCurrency (c c' : String) :
    ∀ (fs : List Flight) (n : Nat), (∀ f ∈ fs, firstTok f.price ≠ "") →
      ((fs.map (fun f => setCurrency f c)).enumFrom n).map entryLine
        = ((fs.map (fun f => setCurrency f c')).enumFrom n).map entryLine := by
  intro fs
  induction fs with
  | nil => intro n _; rfl
  | cons f t ih =>
    intro n h
    simp only [List.map_cons, List.enumFrom_cons]
    rw [entryLine_setCurrency n f c c' (h f (List.mem_cons_self f t)),
      ih (n + 1) (fun g hg => h g (List.mem_cons_of_mem f hg))]

/-- Invariance of `flightsText` under currency replacement. -/
theorem flightsText_setCurrency (fs : List Flight) (c c' : String)
    (h : ∀ f ∈ fs, firstTok f.price ≠ "") :
    flightsText (fs.map (fun f => setCurrency f c))
      = flightsText (fs.map (fun f => setCurrency f c')) := by
  unfold flightsText
  show pyJoin "\n" (((fs.map (fun f => setCurrency f c)).enumFrom 0).map entryLine) = _
  rw [enumFrom_entry_setCurrency c c' fs 0 h]
  rfl

/-- C10: the rendered flight block discards the provider's currency
field entirely: replacing every offer's currency suffix by any other
string leaves the rendered block unchanged, and each offer's stored
price contributes only its first whitespace-separated token (the numeric
part), which the renderer prints after a hard-coded Euro sign. -/
theorem c10_currency_discarded (d : FlightData) (c c' : String)
    (h : ∀ f ∈ d.flights, firstTok f.price ≠ "") :
    formatFlightsForRag { d with flights := d.flights.map (fun f => setCurrency f c) }
      = formatFlightsForRag { d with flights := d.flights.map (fun f => setCurrency f c') } ∧
    ∀ f ∈ d.flights, (setCurrency f c).price = firstTok f.price ++ " " ++ c ∧
      firstTok (setCurrency f c).price = firstTok f.price := by
  constructor
  · rcases d with ⟨err, origin, dest, dd, fls, cnt, msg⟩
    unfold formatFlightsForRag
    cases err with
    | some e => rfl
    | none =>
      by_cases hc0 : cnt = 0
      · simp [hc0]
      · simp only [if_neg hc0]
        rw [flightsText_setCurrency fls c c' h]
  · intro f hf
    exact ⟨rfl, firstTok_firstTok_append f.price c (h f hf)⟩

/-- A parsed demo flight (price token `450.00`). -/
def demoFlight : Flight :=
  { price := "450.00", carrier := "BA", carrier_name := "British Airways (BA)",
    duration := "7h 30m", stops := 0, departure := "2025-06-01T08:30:00",
    arrival := "2025-06-01T16:00:00" }

/-- A demo flight result carrying the one demo flight. -/
def demoData : FlightData :=
  { origin := "LHR", destination := "JFK", departure_date := "2025-06-01",
    flights := [demoFlight], count := 1 }

set_option maxRecDepth 8000 in
/-- C10 witness: a non-EUR currency changes nothing in the rendered
block; the block shows `€450.00` and the provider currency `USD` never
appears in it. -/
theorem c10_currency_discarded_witness :
    formatFlightsForRag { demoData with flights := demoData.flights.map (fun f => setCurrency f "USD") }
      = formatFlightsForRag { demoData with flights := demoData.flights.map (fun f => setCurrency f "KWD") } ∧
    containsSub (formatFlightsForRag { demoData with flights := demoData.flights.map (fun f => setCurrency f "USD") }) "€450.00" = true ∧
    containsSub (formatFlightsForRag { demoData with flights := demoData.flights.map (fun f => setCurrency f "USD") }) "USD" = false := by
  have h := c10_currency_discarded demoData "USD" "KWD" (by decide)
  exact ⟨h.1, by decide, by decide⟩

/-!  ## C6: queries with no topic keywords  -/

/-- C6 counterexample: a query with none of the four topic keyword
vocabularies can still produce a nonempty extracted location set — the
cue word `visit` gates city extraction without being a topic keyword, so
the intent for `Visit Paris` carries locations `[Visit, Paris]`. -/
theorem c6_counterexample :
    (topicFlight "Visit Paris" = false ∧ topicHotel "Visit Paris" = false ∧
     topicWeather "Visit Paris" = false ∧ topicCurrency "Visit Paris" = false) ∧
    extractCities "Visit Paris" = ["Visit", "Paris"] ∧
    extractCities "Visit Paris" ≠ [] := by
  decide

/-- C6 amended: with none of the FLIGHT, HOTEL, WEATHER, CURRENCY
keywords present, all four topic flags are false, no gateway-dependent
block is produced (for every oracle, so no gateway call can be
observed), and the composed real-time context is empty; the composer is
a total function, so extraction never raises.  The extracted location
set, however, need not be empty. -/
theorem c6_no_topic_keywords (q : String) (gw : Gateways)
    (hf : topicFlight q = false) (hh : topicHotel q = false)
    (hw : topicWeather q = false) (hc : topicCurrency q = false) :
    enhanceBlocks q gw = [] ∧ enhanceQuery q gw = "" := by
  have hblocks : enhanceBlocks q gw = [] := by
    unfold enhanceBlocks flightBlocks hotelBlocks weatherBlocks currencyBlocks
    rw [hf, hh, hw, hc]
    cases extractCities q <;> simp
  exact ⟨hblocks, by unfold enhanceQuery; rw [hblocks]; rfl⟩

/-- C6 witness: even with a fully configured, always-succeeding set of
gateways, `Visit Paris` yields no real-time block. -/
theorem c6_no_topic_keywords_witness :
    enhanceBlocks "Visit Paris" okGateways = [] ∧
    enhanceQuery "Visit Paris" okGateways = "" :=
  c6_no_topic_keywords "Visit Paris" okGateways
    (by decide) (by decide) (by decide) (by decide)

/-!  ## C4: flight/hotel calls with missing dates  -/

/-- C4 counterexample: a flight query with an extracted route but no
date, and a hotel keyword with no dates, produces no block at all — the
skip is silent, with no `not retrieved` text appended, even when every
gateway is configured and succeeding. -/
theorem c4_counterexample :
    topicFlight "flight from ABC to XYZ and a hotel" = true ∧
    findRoute "flight from ABC to XYZ and a hotel" = some ("ABC", "XYZ") ∧
    findFirstDate "flight from ABC to XYZ and a hotel" = none ∧
    topicHotel "flight from ABC to XYZ and a hotel" = true ∧
    findAllDates "flight from ABC to XYZ and a hotel" = [] ∧
    enhanceBlocks "flight from ABC to XYZ and a hotel" okGateways = [] := by
  decide

/-- C4 amended: a flight query with a route but no date, and a hotel
query with a city but fewer than two dates, skip the corresponding
gateway call — the branch yields `[]` for every oracle, so no call with
guessed dates can be observed — but the skip is silent: no text block
about incomplete parameters (or anything else) is appended. -/
theorem c4_missing_dates_silent_skip (q : String) (gw : Gateways) (r : String × String)
    (city : String) (rest : List String)
    (hf : topicFlight q = true) (hr : findRoute q = some r)
    (hd : findFirstDate q = none)
    (hh : topicHotel q = true) (hdates : (findAllDates q).length < 2) :
    flightBlocks q gw = [] ∧ hotelBlocks q gw (city :: rest) = [] := by
  constructor
  · unfold flightBlocks
    rcases r with ⟨g1, g2⟩
    rw [hf, hr, hd]
    rfl
  · unfold hotelBlocks
    rw [hh]
    rcases hq : findAllDates q with _ | ⟨d1, ds⟩
    · simp [hq]
    · rcases ds with _ | ⟨d2, ds'⟩
      · simp [hq]
      · rw [hq] at hdates
        simp at hdates
        omega

/-- C4 witness at a concrete dateless flight-and-hotel query. -/
theorem c4_missing_dates_silent_skip_witness :
    flightBlocks "flight from ABC to XYZ and a hotel" errGateways = [] ∧
    hotelBlocks "flight from ABC to XYZ and a hotel" errGateways ("ABC" :: ["XYZ"]) = [] :=
  c4_missing_dates_silent_skip "flight from ABC to XYZ and a hotel" errGateways
    ("ABC", "XYZ") "ABC" ["XYZ"]
    (by decide) (by decide) (by decide) (by decide) (by decide)

/-!  ## C1: behaviour of the composer under gateway failures  -/

/-- C1 counterexample: a failed weather fetch leaves no block at all.
For `weather Paris` the weather branch is triggered (keyword present,
city extracted) and the weather oracle answers with an error, yet the
composed real-time context is empty — silence, not an explicit
`data unavailable` block. -/
theorem c1_counterexample :
    topicWeather "weather Paris" = true ∧
    extractCities "weather Paris" = ["Paris"] ∧
    (errGateways.weather "Paris").error = some "City not found" ∧
    enhanceBlocks "weather Paris" errGateways = [] := by
  decide

/-- A failing (or empty) flight fetch renders the explicit no-data
line. -/
theorem flightFetchBlock_fail (gw : Gateways) (origin destination dt : String)
    (hfail : ¬((searchFlights gw.amadeus origin destination dt).error = none ∧
               (searchFlights gw.amadeus origin destination dt).count > 0)) :
    flightFetchBlock gw origin destination dt
      = ["Flight search attempted but no data available: "
          ++ flightErrMsg (searchFlights gw.amadeus origin destination dt)] :=
  if_neg hfail

/-- C1 amended: only the flight branch degrades loudly.  When a flight
call is issued and fails (error result or zero offers), the composed
context contains the explicit `Flight search attempted but no data
available` block; a failed weather, hotel or currency fetch contributes
no block at all (silent omission).  All branches are total functions, so
no failure propagates an exception. -/
theorem c1_failed_fetch_blocks (q : String) (gw : Gateways) (o d dt city : String)
    (rest : List String) (d1 d2 : String) (ds : List String) :
    (topicFlight q = true → findRoute q = some (o, d) → findFirstDate q = some dt →
      ¬((searchFlights gw.amadeus (extractLocationCode (pyStripWs o))
            (extractLocationCode (pyStripWs d)) dt).error = none ∧
        (searchFlights gw.amadeus (extractLocationCode (pyStripWs o))
            (extractLocationCode (pyStripWs d)) dt).count > 0) →
      ("Flight search attempted but no data available: "
          ++ flightErrMsg (searchFlights gw.amadeus (extractLocationCode (pyStripWs o))
              (extractLocationCode (pyStripWs d)) dt)) ∈ enhanceBlocks q gw) ∧
    ((gw.weather city).error ≠ none → weatherBlocks q gw (city :: rest) = []) ∧
    (findAllDates q = d1 :: d2 :: ds →
      (getHotelOffers gw.amadeus (pyUpper (strTake city 3)) d1 d2).error ≠ none →
      hotelBlocks q gw (city :: rest) = []) ∧
    ((gw.currency "USD").error ≠ none → currencyBlocks q gw = []) := by
  refine ⟨?_, ?_, ?_, ?_⟩
  · intro hf hr hd hfail
    have hfb : flightBlocks q gw
        = flightFetchBlock gw (extractLocationCode (pyStripWs o))
            (extractLocationCode (pyStripWs d)) dt := by
      unfold flightBlocks
      rw [hf, hr, hd]
      rfl
    have hfb2 := hfb.trans (flightFetchBlock_fail gw _ _ dt hfail)
    show _ ∈ enhanceBlocks q gw
    unfold enhanceBlocks
    rw [hfb2]
    exact List.mem_append_left _ (List.mem_cons_self _ _)
  · intro herr
    show (if topicWeather q then
        (if (gw.weather city).error = none
          then [formatWeatherForRag (gw.weather city)] else [])
      else []) = []
    by_cases hw : topicWeather q
    · rw [if_pos hw, if_neg herr]
    · rw [if_neg hw]
  · intro hdq herr
    unfold hotelBlocks
    by_cases hht : topicHotel q
    · rw [if_pos hht, hdq]
      exact if_neg herr
    · rw [if_neg hht]
  · intro herr
    unfold currencyBlocks
    by_cases hct : topicCurrency q
    · rw [if_pos hct]
      exact if_neg herr
    · rw [if_neg hct]

/-- A query triggering all four topics, with a route and two dates. -/
def mixedQuery : String :=
  "flight hotel weather budget from ABC to XYZ 2025-06-01 2025-06-05 Paris"

/-- C1 witness: on `mixedQuery` against unconfigured/failing gateways,
the flight failure block appears in the composed context and the other
three failed branches contribute nothing. -/
theorem c1_failed_fetch_blocks_witness :
    ("Flight search attempted but no data available: Amadeus API not configured")
        ∈ enhanceBlocks mixedQuery errGateways ∧
    weatherBlocks mixedQuery errGateways ("ABC" :: ["XYZ", "Paris"]) = [] ∧
    hotelBlocks mixedQuery errGateways ("ABC" :: ["XYZ", "Paris"]) = [] ∧
    currencyBlocks mixedQuery errGateways = [] := by
  have h := c1_failed_fetch_blocks mixedQuery errGateways "ABC" "XYZ" "2025-06-01"
    "ABC" ["XYZ", "Paris"] "2025-06-01" "2025-06-05" []
  refine ⟨?_, h.2.1 (by decide), h.2.2.1 (by decide) (by decide), h.2.2.2 (by decide)⟩
  exact h.1 (by decide) (by decide) (by decide) (by decide)

end TravelBot
